import Mathlib

/-!
# Verification of the SRP Spatial Dashboard filter/projection pipeline

Shallow embedding of `src/SRP_Spatial_Dashboard.py`.

The dashboard loads a spreadsheet (`MasterSRPDictionary.xlsx`) into a
dataframe `master_df`, and on every filter-control change recomputes a
filtered dataframe (callback `update_views`, lines 158-166) from which four
projections are derived: a map figure, an HTML table, a record count, and a
statistics table.  The download callback `download_data` (lines 213-228)
re-runs the same filter block and serializes the result with
`to_csv(..., index=False)`.

Modelling decisions:
  * A dataframe row becomes a `Record`.  String columns are `String`;
    `Observation_Date` is `Option Nat` (a chronological ordinal; `none` is a
    missing date, pandas `NaT`, for which every `>=`/`<=` comparison is
    false); the two coordinate columns are `Option Int` (`none` is a
    missing/NaN coordinate).  Additional opaque columns are kept in
    `extras`.
  * Python truthiness of a multi-select dropdown value (`None` or a list,
    with `None` and `[]` both falsy) is modelled by a `List String` tested
    with `isEmpty`; a date-picker bound (`None` or a date) is `Option Nat`;
    a button's `n_clicks` (`None` or an int, `None` and `0` falsy) is
    `Option Nat`.
  * A pandas boolean-mask selection `df[mask]` keeps rows in order, so it
    is `List.filter`.
  * Startup column accesses on `master_df` are modelled at the level of a
    raw `Frame` (column names plus rows of cells), since the load-time
    behaviour depends only on which column names are present.
-/

/-- One row of `master_df`.  Field names follow the spreadsheet columns the
source accesses: `SRP_ID`, `SRP_Num`, `Scientific_Name`, `Common_Name`,
`County`, `Observation_Date`, `Latitude_or_transect_start_latitude`,
`Longitude_or_transect_start_longitude`; `extras` holds the values of any
further columns, preserved for the table and the CSV export. -/
structure Record where
  SRP_ID : String
  SRP_Num : String
  Scientific_Name : String
  Common_Name : String
  County : String
  Observation_Date : Option Nat
  Latitude_or_transect_start_latitude : Option Int
  Longitude_or_transect_start_longitude : Option Int
  extras : List String
deriving DecidableEq, Repr

/-- The date-range mask of lines 165-166 / 224-225:
`(df["Observation_Date"] >= start_date) & (df["Observation_Date"] <= end_date)`.
A missing date (pandas `NaT`) compares false on both sides, so the mask is
`false` for it. -/
def dateMask (start_date end_date : Nat) (r : Record) : Bool :=
  match r.Observation_Date with
  | some d => decide (start_date ≤ d) && decide (d ≤ end_date)
  | none => false

/-- The filter block of `update_views` (lines 159-166): start from a copy of
`master_df`; if the SRP selection is truthy keep rows whose `SRP_Num` is in
it; if the scientific-name selection is truthy keep rows whose
`Scientific_Name` is in it; if both date bounds are truthy keep rows whose
`Observation_Date` lies in the inclusive range. -/
def update_views_filter (master_df : List Record)
    (selected_srp_nums selected_scientific_names : List String)
    (start_date end_date : Option Nat) : List Record :=
  let filtered_df := master_df
  let filtered_df :=
    if !selected_srp_nums.isEmpty then
      filtered_df.filter (fun r => selected_srp_nums.contains r.SRP_Num)
    else filtered_df
  let filtered_df :=
    if !selected_scientific_names.isEmpty then
      filtered_df.filter (fun r => selected_scientific_names.contains r.Scientific_Name)
    else filtered_df
  match start_date, end_date with
  | some s, some e => filtered_df.filter (dateMask s e)
  | _, _ => filtered_df

/-- The filter block of `download_data` (lines 218-225), written out in the
source a second time, textually identical to the one in `update_views`. -/
def download_data_filter (master_df : List Record)
    (selected_srp_nums selected_scientific_names : List String)
    (start_date end_date : Option Nat) : List Record :=
  let filtered_df := master_df
  let filtered_df :=
    if !selected_srp_nums.isEmpty then
      filtered_df.filter (fun r => selected_srp_nums.contains r.SRP_Num)
    else filtered_df
  let filtered_df :=
    if !selected_scientific_names.isEmpty then
      filtered_df.filter (fun r => selected_scientific_names.contains r.Scientific_Name)
    else filtered_df
  match start_date, end_date with
  | some s, some e => filtered_df.filter (dateMask s e)
  | _, _ => filtered_df

/-- Spec-side predicate for the SRP constraint: membership in the selected
set when that set is non-empty, always-true when it is empty/absent. -/
def srpActivePred (selected_srp_nums : List String) (r : Record) : Bool :=
  selected_srp_nums.isEmpty || selected_srp_nums.contains r.SRP_Num

/-- Spec-side predicate for the scientific-name constraint. -/
def sciActivePred (selected_scientific_names : List String) (r : Record) : Bool :=
  selected_scientific_names.isEmpty || selected_scientific_names.contains r.Scientific_Name

/-- Spec-side predicate for the date constraint: within the inclusive range
when both bounds are provided, always-true otherwise (records whose date is
unknown fail the active range test). -/
def dateActivePred (start_date end_date : Option Nat) (r : Record) : Bool :=
  match start_date, end_date with
  | some s, some e => dateMask s e r
  | _, _ => true

/-! ## View projections (lines 169-202) -/

/-- A rendered map marker: position plus the hover tooltip values requested
by `hover_data=["SRP_ID", "Scientific_Name", "Common_Name", "County",
"SRP_Num"]` (line 173). -/
structure MapPoint where
  lat : Int
  lon : Int
  hover_data : List String
deriving DecidableEq, Repr

/-- Modelled from the spec: the map figure itself is produced by the
external plotting library (`px.scatter_mapbox`, lines 169-176, not code of
this repository), which renders one marker per row with valid numeric
latitude/longitude and silently drops rows whose coordinates are
missing/NaN; the spec states that records with missing/invalid coordinates
are dropped from this projection only. -/
def scatter_mapbox (filtered_df : List Record) : List MapPoint :=
  filtered_df.filterMap fun r =>
    match r.Latitude_or_transect_start_latitude,
          r.Longitude_or_transect_start_longitude with
    | some la, some lo =>
        some ⟨la, lo, [r.SRP_ID, r.Scientific_Name, r.Common_Name, r.County, r.SRP_Num]⟩
    | _, _ => none

/-- Rendering of a date cell for the table/CSV: a missing date (NaT) prints
as an empty cell, a present one as its ordinal. -/
def dateCell : Option Nat → String
  | none => ""
  | some d => toString d

/-- Rendering of a coordinate cell: a missing/NaN value prints empty. -/
def coordCell : Option Int → String
  | none => ""
  | some q => toString q

/-- The cells of one table/CSV row, in source column order: the eight
modelled columns of `Record` followed by the values of the extra columns
(`for col in filtered_df.columns`, lines 180-182). -/
def recordCells (r : Record) : List String :=
  [r.SRP_ID, r.SRP_Num, r.Scientific_Name, r.Common_Name, r.County,
   dateCell r.Observation_Date,
   coordCell r.Latitude_or_transect_start_latitude,
   coordCell r.Longitude_or_transect_start_longitude] ++ r.extras

/-- The table body of lines 181-184: one row of cells per record of the
filtered dataframe, in dataframe order, every record included regardless of
its coordinates. -/
def table_rows (filtered_df : List Record) : List (List String) :=
  filtered_df.map recordCells

/-- `Record Count: {len(filtered_df)}` (line 188), returned for both the
map tab and the table tab (line 202). -/
def record_count (filtered_df : List Record) : Nat :=
  filtered_df.length

/-- The statistics table body (lines 196-199): the two totals
`len(filtered_df["SRP_Num"].unique())` and
`len(filtered_df["Scientific_Name"].unique())`. -/
def statistics_counts (filtered_df : List Record) : Nat × Nat :=
  ((filtered_df.map Record.SRP_Num).dedup.length,
   (filtered_df.map Record.Scientific_Name).dedup.length)

/-! ## CSV export (lines 213-228) -/

/-- CSV field escaping as applied by pandas `to_csv` (QUOTE_MINIMAL): a
value containing the delimiter, a quote or a line break is wrapped in
quotes with embedded quotes doubled; other values are written verbatim. -/
def csvEscape (s : String) : String :=
  if s.data.contains ',' || s.data.contains '\"' || s.data.contains '\n' then
    "\"" ++ String.mk ((s.data.map fun c => if c = '\"' then ['\"', '\"'] else [c]).flatten)
         ++ "\""
  else s

/-- One CSV row: the escaped cells joined by the comma delimiter. -/
def csvLine (cells : List String) : String :=
  String.intercalate "," (cells.map csvEscape)

/-- The column names of the dataframe, in source column order: the eight
modelled columns followed by the names of the extra columns. -/
def csvColumns (extraCols : List String) : List String :=
  ["SRP_ID", "SRP_Num", "Scientific_Name", "Common_Name", "County",
   "Observation_Date", "Latitude_or_transect_start_latitude",
   "Longitude_or_transect_start_longitude"] ++ extraCols

/-- `filtered_df.to_csv` with `index=False` (line 228): a header row of the
column names followed by one row per record, no index column. -/
def to_csv (extraCols : List String) (filtered_df : List Record) : List String :=
  csvLine (csvColumns extraCols) :: filtered_df.map (fun r => csvLine (recordCells r))

/-- The value returned by the `download_data` callback: either
`dash.no_update` (no output is emitted, no file is produced) or a
`dcc.send_data_frame` payload carrying a file name and CSV content. -/
inductive DownloadData where
  | no_update : DownloadData
  | send_data_frame (filename : String) (csv : List String) : DownloadData
deriving DecidableEq, Repr

/-- Python truthiness of `n_clicks` (`None` before the button was ever
clicked, an integer click count afterwards): `not n_clicks` is true exactly
for `None` and `0`. -/
def nClicksTruthy : Option Nat → Bool
  | none => false
  | some n => n != 0

/-- The `download_data` callback (lines 213-228): if `n_clicks` is falsy it
returns `dash.no_update`; otherwise it re-filters `master_df` with the
duplicated filter block and returns the CSV serialization under the fixed
name `filtered_srp_data.csv`. -/
def download_data (n_clicks : Option Nat) (master_df : List Record)
    (extraCols : List String)
    (selected_srp_nums selected_scientific_names : List String)
    (start_date end_date : Option Nat) : DownloadData :=
  if !nClicksTruthy n_clicks then
    DownloadData.no_update
  else
    DownloadData.send_data_frame "filtered_srp_data.csv"
      (to_csv extraCols
        (download_data_filter master_df selected_srp_nums selected_scientific_names
          start_date end_date))

/-! ## Startup / load (lines 10-22 and the layout, lines 58-81)

Load-time behaviour depends only on which columns exist in the file, so it
is modelled on a raw frame of column names and string rows. -/

/-- A raw dataframe as read from the spreadsheet: column names plus rows of
cells. -/
structure Frame where
  columns : List String
  rows : List (List String)
deriving DecidableEq, Repr

/-- What can abort startup: `pd.read_excel` failing because the file is
missing/unreadable, or a column subscript raising `KeyError`. -/
inductive LoadError where
  | fileMissing : LoadError
  | keyError (column : String) : LoadError
deriving DecidableEq, Repr

/-- The columns `master_df` is subscripted with during module-level
execution, in evaluation order: the two coordinate columns in the
`GeoDataFrame` construction (lines 15-22), then `SRP_Num` (line 58),
`Scientific_Name` (line 69) and `Observation_Date` (lines 80-81) while the
layout is built. -/
def startupAccessedColumns : List String :=
  ["Longitude_or_transect_start_longitude",
   "Latitude_or_transect_start_latitude",
   "SRP_Num", "Scientific_Name", "Observation_Date"]

/-- Module-level startup (lines 10-81): read the spreadsheet (failing if the
file is missing/unreadable), then perform the startup column accesses in
order, each raising `KeyError` on an absent column; on success `master_df`
is held unchanged — all rows in file order, all columns preserved. -/
def startup (file : Option Frame) : Except LoadError Frame :=
  match file with
  | none => Except.error LoadError.fileMissing
  | some master_df =>
    if !master_df.columns.contains "Longitude_or_transect_start_longitude" then
      Except.error (LoadError.keyError "Longitude_or_transect_start_longitude")
    else if !master_df.columns.contains "Latitude_or_transect_start_latitude" then
      Except.error (LoadError.keyError "Latitude_or_transect_start_latitude")
    else if !master_df.columns.contains "SRP_Num" then
      Except.error (LoadError.keyError "SRP_Num")
    else if !master_df.columns.contains "Scientific_Name" then
      Except.error (LoadError.keyError "Scientific_Name")
    else if !master_df.columns.contains "Observation_Date" then
      Except.error (LoadError.keyError "Observation_Date")
    else
      Except.ok master_df

/-- The seven required columns named by the spec's load contract (mapped to
their spreadsheet names). -/
def specRequiredColumns : List String :=
  ["SRP_Num", "Scientific_Name", "Common_Name", "County", "Observation_Date",
   "Latitude_or_transect_start_latitude",
   "Longitude_or_transect_start_longitude"]

/-! ## Concrete fixtures

Records A and B of the spec's test scenario (§8): A with srp 100 /
"Ursus americanus" / 2023-01-10, B with srp 200 / "Lynx rufus" /
2023-06-01.  Dates are encoded as `yyyymmdd` ordinals, which order
chronologically. -/

def recordA : Record :=
  { SRP_ID := "1", SRP_Num := "100", Scientific_Name := "Ursus americanus",
    Common_Name := "American black bear", County := "Travis",
    Observation_Date := some 20230110,
    Latitude_or_transect_start_latitude := some 30,
    Longitude_or_transect_start_longitude := some (-97),
    extras := [] }

def recordB : Record :=
  { SRP_ID := "2", SRP_Num := "200", Scientific_Name := "Lynx rufus",
    Common_Name := "Bobcat", County := "Hays",
    Observation_Date := some 20230601,
    Latitude_or_transect_start_latitude := some 29,
    Longitude_or_transect_start_longitude := some (-98),
    extras := [] }

/-- The spec's missing-latitude scenario record: not mappable, but still
eligible for the table and statistics views. -/
def recordNoLat : Record :=
  { SRP_ID := "3", SRP_Num := "300", Scientific_Name := "Puma concolor",
    Common_Name := "Mountain lion", County := "Brewster",
    Observation_Date := some 20230215,
    Latitude_or_transect_start_latitude := none,
    Longitude_or_transect_start_longitude := some (-103),
    extras := [] }

/-- A frame that has the five columns accessed at startup but lacks
`Common_Name` and `County`. -/
def frameNoCounty : Frame :=
  { columns := ["Longitude_or_transect_start_longitude",
                "Latitude_or_transect_start_latitude",
                "SRP_Num", "Scientific_Name", "Observation_Date"],
    rows := [["-97", "30", "100", "Ursus americanus", "20230110"]] }

/-- A frame lacking the `SRP_Num` column (startup must fail on it). -/
def frameNoSrpNum : Frame :=
  { columns := ["Longitude_or_transect_start_longitude",
                "Latitude_or_transect_start_latitude",
                "Scientific_Name", "Observation_Date"],
    rows := [] }

/-! ## Helper lemmas -/

/-- Three chained filters collapse to one filter by the conjunction. -/
theorem filter_filter_filter (xs : List Record) (p q c : Record → Bool) :
    ((xs.filter p).filter q).filter c = xs.filter (fun r => p r && q r && c r) := by
  rw [List.filter_filter, List.filter_filter]
  exact List.filter_congr fun a _ => by cases p a <;> cases q a <;> cases c a <;> rfl

/-- The sequential filter block of `update_views` equals a single stable
filter by the conjunction of the three active predicates. -/
theorem update_views_filter_char (master_df : List Record)
    (sel scis : List String) (s e : Option Nat) :
    update_views_filter master_df sel scis s e
      = master_df.filter (fun r =>
          srpActivePred sel r && sciActivePred scis r && dateActivePred s e r) := by
  have h1 : (if !sel.isEmpty then master_df.filter (fun r => sel.contains r.SRP_Num)
        else master_df)
      = master_df.filter (fun r => srpActivePred sel r) := by
    unfold srpActivePred
    cases h : sel.isEmpty <;> simp [h]
  have h2 : ∀ xs : List Record,
      (if !scis.isEmpty then xs.filter (fun r => scis.contains r.Scientific_Name) else xs)
        = xs.filter (fun r => sciActivePred scis r) := by
    intro xs
    unfold sciActivePred
    cases h : scis.isEmpty <;> simp [h]
  cases s <;> cases e <;> simp only [update_views_filter] <;> rw [h1, h2]
  · rw [List.filter_filter]
    exact List.filter_congr fun a _ => by
      cases srpActivePred sel a <;> cases sciActivePred scis a <;> rfl
  · rw [List.filter_filter]
    exact List.filter_congr fun a _ => by
      cases srpActivePred sel a <;> cases sciActivePred scis a <;> rfl
  · rw [List.filter_filter]
    exact List.filter_congr fun a _ => by
      cases srpActivePred sel a <;> cases sciActivePred scis a <;> rfl
  · rw [filter_filter_filter]
    rfl

/-- An inactive date range (at least one bound absent) makes
`dateActivePred` constantly true, so the conjunction drops to the first two
predicates. -/
theorem update_views_filter_no_date (master_df : List Record)
    (sel scis : List String) :
    update_views_filter master_df sel scis none none
      = master_df.filter (fun r => srpActivePred sel r && sciActivePred scis r) := by
  rw [update_views_filter_char]
  exact List.filter_congr fun a _ => by
    cases srpActivePred sel a <;> cases sciActivePred scis a <;> rfl

/-- The map projection equals the coordinate-valid sublist mapped to
markers. -/
theorem scatter_mapbox_eq_filter_map (filtered_df : List Record) :
    scatter_mapbox filtered_df
      = (filtered_df.filter (fun r =>
            r.Latitude_or_transect_start_latitude.isSome &&
            r.Longitude_or_transect_start_longitude.isSome)).map
          (fun r =>
            { lat := r.Latitude_or_transect_start_latitude.getD 0,
              lon := r.Longitude_or_transect_start_longitude.getD 0,
              hover_data := [r.SRP_ID, r.Scientific_Name, r.Common_Name,
                             r.County, r.SRP_Num] }) := by
  induction filtered_df with
  | nil => rfl
  | cons a t ih =>
    cases hla : a.Latitude_or_transect_start_latitude <;>
      cases hlo : a.Longitude_or_transect_start_longitude <;>
        · simp [scatter_mapbox, List.filterMap_cons, hla, hlo]
          exact ih

/-- Case analysis of `startup` over the presence of the five columns it
accesses: success happens exactly when all five are present, and any absent
one produces a `KeyError` on some absent startup column. -/
theorem startup_cases (df : Frame) :
    (startup (some df) = Except.ok df ↔
      ∀ c ∈ startupAccessedColumns, c ∈ df.columns) ∧
    ((∃ c ∈ startupAccessedColumns, c ∉ df.columns) →
      ∃ c ∈ startupAccessedColumns, c ∉ df.columns ∧
        startup (some df) = Except.error (LoadError.keyError c)) := by
  by_cases h1 : "Longitude_or_transect_start_longitude" ∈ df.columns <;>
  by_cases h2 : "Latitude_or_transect_start_latitude" ∈ df.columns <;>
  by_cases h3 : "SRP_Num" ∈ df.columns <;>
  by_cases h4 : "Scientific_Name" ∈ df.columns <;>
  by_cases h5 : "Observation_Date" ∈ df.columns <;>
    simp [startup, startupAccessedColumns, h1, h2, h3, h4, h5]

/-- The date mask is constantly false on an inverted range (`e < s`). -/
theorem dateMask_inverted (s e : Nat) (h : e < s) (r : Record) :
    dateMask s e r = false := by
  unfold dateMask
  cases r.Observation_Date with
  | none => rfl
  | some d =>
    cases Nat.lt_or_ge d s with
    | inl hlt => simp [Nat.not_le_of_lt hlt]
    | inr hge => simp [Nat.not_le_of_lt (Nat.lt_of_lt_of_le h hge)]

/-! ## Claims -/

/-- C1: for every record collection and every filter specification, the
filter pipeline of `update_views` returns exactly the records satisfying
the conjunction of the three active predicates (SRP membership if the
selection is non-empty, scientific-name membership if that selection is
non-empty, inclusive date-range membership if both bounds are provided;
an absent/empty constraint is always-true), and — being a single stable
`List.filter` — the survivors keep their relative input order. -/
theorem update_views_filter_conjunction (master_df : List Record)
    (selected_srp_nums selected_scientific_names : List String)
    (start_date end_date : Option Nat) :
    update_views_filter master_df selected_srp_nums selected_scientific_names
        start_date end_date
      = master_df.filter (fun r =>
          srpActivePred selected_srp_nums r &&
          sciActivePred selected_scientific_names r &&
          dateActivePred start_date end_date r) :=
  update_views_filter_char master_df selected_srp_nums selected_scientific_names
    start_date end_date

/-- C2: with every constraint field empty/absent the filter pipeline is the
identity on the record collection, in order and content. -/
theorem update_views_filter_identity (master_df : List Record) :
    update_views_filter master_df [] [] none none = master_df := rfl

/-- C3: the date predicate is applied iff both bounds are present — with
only one bound set the result is the same as with no bounds; when both are
present the pipeline additionally filters by the inclusive chronological
range on the date ordinal, excluding every record whose
`Observation_Date` is missing; when the predicate is inactive the filter
never consults `Observation_Date`, so missing-date records are kept
(subject only to the other two predicates). -/
theorem update_views_filter_date_policy (master_df : List Record)
    (sel scis : List String) :
    (∀ s : Nat, update_views_filter master_df sel scis (some s) none
        = update_views_filter master_df sel scis none none) ∧
    (∀ e : Nat, update_views_filter master_df sel scis none (some e)
        = update_views_filter master_df sel scis none none) ∧
    (∀ s e : Nat, update_views_filter master_df sel scis (some s) (some e)
        = (update_views_filter master_df sel scis none none).filter
            (fun r => match r.Observation_Date with
              | some d => decide (s ≤ d) && decide (d ≤ e)
              | none => false)) ∧
    update_views_filter master_df sel scis none none
      = master_df.filter (fun r => srpActivePred sel r && sciActivePred scis r) :=
  ⟨fun _ => rfl, fun _ => rfl, fun _ _ => rfl,
   update_views_filter_no_date master_df sel scis⟩

/-- C4: for every filter state, the filter block of `download_data` computes
record for record, in order, the same collection as the filter block of
`update_views` — the two duplicated blocks are equivalent functions of the
shared record store. -/
theorem download_filter_eq_update_filter (master_df : List Record)
    (selected_srp_nums selected_scientific_names : List String)
    (start_date end_date : Option Nat) :
    download_data_filter master_df selected_srp_nums selected_scientific_names
        start_date end_date
      = update_views_filter master_df selected_srp_nums selected_scientific_names
          start_date end_date := rfl

/-- C5: invoked without the explicit trigger (`n_clicks` still `None`, or a
falsy `0`), the download callback returns `dash.no_update` — no file of any
kind — and that outcome is distinct from an empty (header-only) export
file. -/
theorem download_data_not_requested (master_df : List Record)
    (extraCols selected_srp_nums selected_scientific_names : List String)
    (start_date end_date : Option Nat) :
    download_data none master_df extraCols selected_srp_nums
        selected_scientific_names start_date end_date
      = DownloadData.no_update ∧
    download_data (some 0) master_df extraCols selected_srp_nums
        selected_scientific_names start_date end_date
      = DownloadData.no_update ∧
    DownloadData.no_update
      ≠ DownloadData.send_data_frame "filtered_srp_data.csv" (to_csv extraCols []) :=
  ⟨rfl, rfl, fun h => DownloadData.noConfusion h⟩

/-- C5 witness: concrete instance of the no-update contract. -/
theorem download_data_not_requested_witness :
    download_data none [recordA, recordB] [] [] [] none none
      = DownloadData.no_update ∧
    download_data (some 0) [recordA, recordB] [] [] [] none none
      = DownloadData.no_update ∧
    DownloadData.no_update
      ≠ DownloadData.send_data_frame "filtered_srp_data.csv" (to_csv [] []) :=
  download_data_not_requested [recordA, recordB] [] [] [] none none

/-- C6: a triggered export (any positive click count) produces the file
`filtered_srp_data.csv` built by `to_csv` with no index column: its first
row is the comma-joined header of the column names in source column order,
followed by one row per filtered record, so the row count is the filtered
record count plus one; an empty filtered collection yields the header-only
file, and rows are comma-delimited. -/
theorem download_data_csv_shape (master_df : List Record)
    (extraCols selected_srp_nums selected_scientific_names : List String)
    (start_date end_date : Option Nat) (k : Nat) :
    download_data (some (k + 1)) master_df extraCols selected_srp_nums
        selected_scientific_names start_date end_date
      = DownloadData.send_data_frame "filtered_srp_data.csv"
          (to_csv extraCols
            (download_data_filter master_df selected_srp_nums
              selected_scientific_names start_date end_date)) ∧
    (∀ filtered_df : List Record,
        to_csv extraCols filtered_df
          = csvLine (csvColumns extraCols)
              :: filtered_df.map (fun r => csvLine (recordCells r)) ∧
        (to_csv extraCols filtered_df).length = filtered_df.length + 1) ∧
    to_csv extraCols [] = [csvLine (csvColumns extraCols)] ∧
    csvLine ["a", "b"] = "a,b" :=
  ⟨rfl, fun filtered_df => ⟨rfl, by simp [to_csv]⟩, rfl, rfl⟩

/-- C7 counterexample: a source file containing exactly the five columns the
startup code touches — but neither `County` nor `Common_Name` — loads
successfully, so load does not fail for every absent required column as the
claim states. -/
theorem startup_missing_county_loads :
    startup (some frameNoCounty) = Except.ok frameNoCounty ∧
    "County" ∉ frameNoCounty.columns ∧
    "Common_Name" ∉ frameNoCounty.columns :=
  ⟨rfl, by decide, by decide⟩

/-- C7 (amended): startup fails when the source file is missing/unreadable,
and it fails with a `KeyError` when any of the five columns it actually
accesses (`Longitude_or_transect_start_longitude`,
`Latitude_or_transect_start_latitude`, `SRP_Num`, `Scientific_Name`,
`Observation_Date`) is absent — absence of `Common_Name` or `County` is not
detected at startup; on success the records are returned unchanged, in file
row order with all original columns preserved. -/
theorem startup_load_contract (df : Frame) :
    startup none = Except.error LoadError.fileMissing ∧
    (startup (some df) = Except.ok df ↔
      ∀ c ∈ startupAccessedColumns, c ∈ df.columns) ∧
    ((∃ c ∈ startupAccessedColumns, c ∉ df.columns) →
      ∃ c ∈ startupAccessedColumns, c ∉ df.columns ∧
        startup (some df) = Except.error (LoadError.keyError c)) :=
  ⟨rfl, (startup_cases df).1, (startup_cases df).2⟩

/-- C7 witness: the contract applied to a frame lacking `SRP_Num` (load
fails on a startup column) and to the five-column frame (load succeeds). -/
theorem startup_load_contract_witness :
    (∃ c ∈ startupAccessedColumns, c ∉ frameNoSrpNum.columns ∧
        startup (some frameNoSrpNum) = Except.error (LoadError.keyError c)) ∧
    startup (some frameNoSrpNum) ≠ Except.ok frameNoSrpNum :=
  ⟨(startup_load_contract frameNoSrpNum).2.2 ⟨"SRP_Num", by decide, by decide⟩,
   fun h => by
    have := ((startup_load_contract frameNoSrpNum).2.1.mp h) "SRP_Num" (by decide)
    exact absurd this (by decide)⟩

/-- C8: the Statistics Summary is exactly the two totals — the number of
distinct `SRP_Num` values and the number of distinct `Scientific_Name`
values of the filtered collection — and on the two-record scenario
[A (srp 100, Ursus americanus), B (srp 200, Lynx rufus)] it reports
(2, 2). -/
theorem statistics_counts_distinct (filtered_df : List Record) :
    statistics_counts filtered_df
      = ((filtered_df.map Record.SRP_Num).toFinset.card,
         (filtered_df.map Record.Scientific_Name).toFinset.card) ∧
    statistics_counts [recordA, recordB] = (2, 2) := by
  constructor
  · unfold statistics_counts
    rw [List.card_toFinset, List.card_toFinset]
  · decide

/-- C9: the map projection emits one point per record with present numeric
coordinates, carrying the tooltip fields `[SRP_ID, Scientific_Name,
Common_Name, County, SRP_Num]`, and drops records with a missing coordinate
from the map only: the table and statistics projections range over the full
filtered collection, as the missing-latitude scenario record shows. -/
theorem map_projection_drops_invalid_coords (filtered_df : List Record) :
    scatter_mapbox filtered_df
      = (filtered_df.filter (fun r =>
            r.Latitude_or_transect_start_latitude.isSome &&
            r.Longitude_or_transect_start_longitude.isSome)).map
          (fun r =>
            { lat := r.Latitude_or_transect_start_latitude.getD 0,
              lon := r.Longitude_or_transect_start_longitude.getD 0,
              hover_data := [r.SRP_ID, r.Scientific_Name, r.Common_Name,
                             r.County, r.SRP_Num] }) ∧
    table_rows filtered_df = filtered_df.map recordCells ∧
    statistics_counts filtered_df
      = ((filtered_df.map Record.SRP_Num).dedup.length,
         (filtered_df.map Record.Scientific_Name).dedup.length) ∧
    scatter_mapbox [recordNoLat] = [] ∧
    table_rows [recordNoLat] = [recordCells recordNoLat] ∧
    statistics_counts [recordNoLat] = (1, 1) :=
  ⟨scatter_mapbox_eq_filter_map filtered_df, rfl, rfl, rfl, rfl, by decide⟩

/-- C10: with both bounds set and start strictly after end, no record can
satisfy the inclusive range, so both filter blocks return the empty
collection. -/
theorem inverted_range_empty (master_df : List Record)
    (sel scis : List String) (s e : Nat) (h : e < s) :
    update_views_filter master_df sel scis (some s) (some e) = [] ∧
    download_data_filter master_df sel scis (some s) (some e) = [] := by
  have hnil : ∀ xs : List Record, xs.filter (dateMask s e) = [] := fun xs =>
    List.filter_eq_nil_iff.mpr fun a _ => by simp [dateMask_inverted s e h a]
  constructor
  · simp only [update_views_filter]
    exact hnil _
  · simp only [download_data_filter]
    exact hnil _

/-- C10 witness: the inverted range (start 1, end 0) empties the
two-record collection. -/
theorem inverted_range_empty_witness :
    update_views_filter [recordA, recordB] [] [] (some 1) (some 0) = [] ∧
    download_data_filter [recordA, recordB] [] [] (some 1) (some 0) = [] :=
  inverted_range_empty [recordA, recordB] [] [] 1 0 Nat.zero_lt_one

